import Mathlib

/-!
A shallow embedding of the `objection` object-storage server (Rust) for
checking its specification.  The embedding covers:

* `src/config.rs` — the configuration file model (`ConfigFile` with one
  optional section per TOML table) and `Config::validate_file`, which merges
  the partial sections against built-in defaults.  The Rust code reports
  invalid values through `cmd.error(..).exit()` (a diagnostic followed by
  process exit) and reaches `todo!(..)` panics for the five unimplemented
  sections; both outcomes are modelled explicitly by `ValidateFailure`.
* `src/models/bucket.rs` — the `buckets` table (`create_table` declares
  UNIQUE constraints on `uuid` and `name`), `Bucket::new` (INSERT),
  `Bucket::find_all` (SELECT *), `Bucket::delete` (empty body), and the
  `From<Row> for Bucket` conversion built on panicking `expect` calls.
* `src/routes/api/buckets.rs` — the `get_buckets` handler and the
  `PaginatedQuery` type from `src/routes/api/mod.rs`.

External crates (url, http, uuid) are not part of the repository: their
parsers appear as explicit function parameters of the embedded code, so every
theorem about the fail-fast structure holds for any behaviour of those
parsers.  Parsers defined in the repository itself (the strum-derived
`TlsVersion` and `CachePolicy` string forms) are embedded concretely.
-/

/-- Embeds `CachePolicy` from `src/models/mod.rs`; strum kebab-case gives the
string forms "cache" and "no-cache". -/
inductive CachePolicy
  | cache
  | noCache
deriving DecidableEq, Repr

/-- Embeds the strum-derived `FromStr` for `CachePolicy` (kebab-case). -/
def parseCachePolicy : String → Option CachePolicy
  | "cache" => some CachePolicy.cache
  | "no-cache" => some CachePolicy.noCache
  | _ => none

/-- Embeds `TlsVersion` from `src/config.rs` (strum serializations "1.1",
"1.2", "1.3"). -/
inductive TlsVersion
  | v1_1
  | v1_2
  | v1_3
deriving DecidableEq, Repr

/-- Embeds the strum-derived `FromStr` for `TlsVersion`. -/
def parseTlsVersion : String → Option TlsVersion
  | "1.1" => some TlsVersion.v1_1
  | "1.2" => some TlsVersion.v1_2
  | "1.3" => some TlsVersion.v1_3
  | _ => none

/-- Embeds `TlsKeyConfig` from `src/config.rs`: key material is either an
inline pair of PEM strings or a pair of file paths (paths modelled as
strings). -/
inductive TlsKeyConfig
  | string (private_key public_key : String)
  | file (private_key_file public_key_file : String)
deriving DecidableEq, Repr

/-- Embeds `PartialTlsConfig` (the optional `[tls]` TOML section).  The Rust
`BTreeSet<String>` of version strings is modelled as a list; only membership
and emptiness matter to the validation logic. -/
structure TlsSection where
  tls_versions : Option (List String)
  private_key : Option String
  public_key : Option String
  private_key_file : Option String
  public_key_file : Option String
deriving DecidableEq, Repr

/-- Embeds `PartialCorsConfig` (the optional `[cors]` TOML section). -/
structure CorsSection where
  allow_origins : Option (List String)
  allow_methods : Option (List String)
  allow_headers : Option (List String)
  allow_credentials : Option Bool
deriving DecidableEq, Repr

/-- Embeds `PartialCacheControlConfig`. -/
structure CacheControlSection where
  default_policy : Option CachePolicy
  default_max_age : Option Nat
deriving DecidableEq, Repr

/-- Embeds `PartialAccessControlConfig`. -/
structure AccessControlSection where
  enable_access_tokens : Option Bool
  enable_local_host_auth_bypass : Option Bool
deriving DecidableEq, Repr

/-- Embeds `PartialIpFilterConfig`. -/
structure IpFilterSection where
  whitelist : Option (List String)
  blacklist : Option (List String)
deriving DecidableEq, Repr

/-- Embeds `PartialContentTypesConfig`. -/
structure ContentTypesSection where
  whitelist : Option (List String)
  blacklist : Option (List String)
deriving DecidableEq, Repr

/-- Embeds `PartialRateLimitingConfig`. -/
structure RateLimitingSection where
  default_period : Option String
  default_burst_size : Option Nat
deriving DecidableEq, Repr

/-- Embeds `PartialHttpConfig`; the `Ipv4Addr` host is modelled by its
numeric value. -/
structure HttpSection where
  host : Option Nat
  port : Option Nat
deriving DecidableEq, Repr

/-- Embeds `ConfigFile` from `src/config.rs`: the deserialized configuration
file, every section optional. -/
structure ConfigFile where
  http : Option HttpSection
  tls : Option TlsSection
  cors : Option CorsSection
  cache_control : Option CacheControlSection
  access_control : Option AccessControlSection
  ip_filter : Option IpFilterSection
  content_types : Option ContentTypesSection
  rate_limiting : Option RateLimitingSection
deriving DecidableEq, Repr

/-- Embeds `HttpConfig` with its `Default` impl (`0.0.0.0:2048`). -/
structure HttpConfig where
  host : Nat
  port : Nat
deriving DecidableEq, Repr

def HttpConfig.default : HttpConfig := ⟨0, 2048⟩

/-- Embeds `TlsConfig`: validated version set (as a list, see `TlsSection`)
plus key material. -/
structure TlsConfig where
  tls_versions : List TlsVersion
  keys : TlsKeyConfig
deriving DecidableEq, Repr

/-- Embeds `CorsConfig`.  The validated `Origin` / `Method` / `HeaderName`
values produced by the external url/http crates are modelled as the strings
returned by the abstracted parsers. -/
structure CorsConfig where
  allow_origins : List String
  allow_methods : List String
  allow_headers : List String
  allow_credentials : Bool
deriving DecidableEq, Repr

/-- Embeds `CacheControlConfig` with its `Default` impl. -/
structure CacheControlConfig where
  default_policy : CachePolicy
  default_max_age : Nat
deriving DecidableEq, Repr

def CacheControlConfig.default : CacheControlConfig := ⟨CachePolicy.noCache, 3600⟩

/-- Embeds `AccessControlConfig` with its `Default` impl
(`enable_access_tokens = true`, `enable_local_host_auth_bypass = false`). -/
structure AccessControlConfig where
  enable_access_tokens : Bool
  enable_local_host_auth_bypass : Bool
deriving DecidableEq, Repr

def AccessControlConfig.default : AccessControlConfig := ⟨true, false⟩

/-- Embeds `IpFilterConfig` (whitelist XOR blacklist of CIDR ranges; entries
modelled as strings since the cidr crate is external). -/
inductive IpFilterConfig
  | whitelist (entries : List String)
  | blacklist (entries : List String)
deriving DecidableEq, Repr

/-- Embeds `ContentTypesConfig`. -/
inductive ContentTypesConfig
  | whitelist (entries : List String)
  | blacklist (entries : List String)
deriving DecidableEq, Repr

/-- Embeds `RateLimitingConfig` (the period as seconds). -/
structure RateLimitingConfig where
  default_period : Nat
  default_burst_size : Nat
deriving DecidableEq, Repr

/-- Embeds `Config`: the fully validated configuration. -/
structure Config where
  http : HttpConfig
  tls : Option TlsConfig
  cors : Option CorsConfig
  cache_control : CacheControlConfig
  access_control : AccessControlConfig
  ip_filter : Option IpFilterConfig
  content_types : Option ContentTypesConfig
  rate_limiting : Option RateLimitingConfig
deriving DecidableEq, Repr

/-- Embeds `ConfigError`: the diagnostics issued through
`cmd.error(ErrorKind::ValueValidation, ..).exit()` in `validate_file`. -/
inductive ConfigError
  | invalidTlsVersion (v : String)
  | invalidTlsKeys
  | invalidCorsOrigin (o : String)
  | invalidCorsMethod (m : String)
  | invalidCorsHeader (h : String)
deriving DecidableEq, Repr

/-- How `Config::validate_file` can fail to return a `Config`: either a
`ConfigError` diagnostic followed by process exit, or a `todo!` panic in one
of the five unimplemented section branches. -/
inductive ValidateFailure
  | configError (e : ConfigError)
  | panic (msg : String)
deriving DecidableEq, Repr

/-- Embeds the list-validation pattern used throughout `validate_file`:
`xs.into_iter().map(|x| parse(x).unwrap_or_else(|_| cmd.error(..).exit())).collect()`.
Iteration aborts at the first element the parser rejects, exiting with the
diagnostic built from that element; otherwise every parsed value is kept. -/
def collectParsed (parse : String → Option α) (mkErr : String → ConfigError) :
    List String → Except ValidateFailure (List α)
  | [] => Except.ok []
  | x :: xs =>
    match parse x with
    | none => Except.error (ValidateFailure.configError (mkErr x))
    | some a =>
      match collectParsed parse mkErr xs with
      | Except.error e => Except.error e
      | Except.ok as => Except.ok (a :: as)

/-- Embeds the `match (tls.private_key, tls.public_key, tls.private_key_file,
tls.public_key_file)` in `Config::validate_file`: exactly the two complete
pairs are accepted, every other combination exits with the invalid-TLS-keys
diagnostic. -/
def validateTlsKeys (pk pub pkf pubf : Option String) :
    Except ValidateFailure TlsKeyConfig :=
  match pk, pub, pkf, pubf with
  | none, none, some private_key_file, some public_key_file =>
    Except.ok (TlsKeyConfig.file private_key_file public_key_file)
  | some private_key, some public_key, none, none =>
    Except.ok (TlsKeyConfig.string private_key public_key)
  | _, _, _, _ => Except.error (ValidateFailure.configError ConfigError.invalidTlsKeys)

/-- Embeds the `file.tls.map(|tls| ..)` closure of `Config::validate_file`:
version strings are parsed against `TlsVersion` (absent list defaults to all
three versions), then the key material is checked. -/
def validateTls (tls : TlsSection) : Except ValidateFailure TlsConfig :=
  match
    (match tls.tls_versions with
     | some versions => collectParsed parseTlsVersion ConfigError.invalidTlsVersion versions
     | none => Except.ok [TlsVersion.v1_1, TlsVersion.v1_2, TlsVersion.v1_3]) with
  | Except.error e => Except.error e
  | Except.ok tls_versions =>
    match validateTlsKeys tls.private_key tls.public_key
        tls.private_key_file tls.public_key_file with
    | Except.error e => Except.error e
    | Except.ok keys => Except.ok ⟨tls_versions, keys⟩

/-- Embeds the `file.cors.map(|cors| ..)` closure of `Config::validate_file`.
The element parsers of the external url/http crates are taken as parameters
`pO`, `pM`, `pH`; an absent list defaults to the empty set, an absent
credentials flag to `false`. -/
def validateCors (pO pM pH : String → Option String) (cors : CorsSection) :
    Except ValidateFailure CorsConfig :=
  match
    (match cors.allow_origins with
     | some os => collectParsed pO ConfigError.invalidCorsOrigin os
     | none => Except.ok []) with
  | Except.error e => Except.error e
  | Except.ok allow_origins =>
    match
      (match cors.allow_methods with
       | some ms => collectParsed pM ConfigError.invalidCorsMethod ms
       | none => Except.ok []) with
    | Except.error e => Except.error e
    | Except.ok allow_methods =>
      match
        (match cors.allow_headers with
         | some hs => collectParsed pH ConfigError.invalidCorsHeader hs
         | none => Except.ok []) with
      | Except.error e => Except.error e
      | Except.ok allow_headers =>
        Except.ok ⟨allow_origins, allow_methods, allow_headers,
          cors.allow_credentials.getD false⟩

/-- Embeds `Config::validate_file` from `src/config.rs`.  Sections are
processed in source order; the `cache_control`, `access_control`,
`ip_filter`, `content_types` and `rate_limiting` branches reach `todo!(..)`
whenever their section is present (modelled as a panic failure), and fall
back to their defaults when absent. -/
def validateFile (pO pM pH : String → Option String) (file : ConfigFile) :
    Except ValidateFailure Config :=
  let http : HttpConfig :=
    match file.http with
    | some h => ⟨h.host.getD HttpConfig.default.host, h.port.getD HttpConfig.default.port⟩
    | none => HttpConfig.default
  match
    (match file.tls with
     | none => Except.ok none
     | some t =>
       match validateTls t with
       | Except.error e => Except.error e
       | Except.ok tc => Except.ok (some tc)) with
  | Except.error e => Except.error e
  | Except.ok tls =>
    match
      (match file.cors with
       | none => Except.ok none
       | some c =>
         match validateCors pO pM pH c with
         | Except.error e => Except.error e
         | Except.ok cc => Except.ok (some cc)) with
    | Except.error e => Except.error e
    | Except.ok cors =>
      match file.cache_control with
      | some _ => Except.error (ValidateFailure.panic "not yet implemented: Validate cache control config")
      | none =>
        match file.access_control with
        | some _ => Except.error (ValidateFailure.panic "not yet implemented: Validate access control config")
        | none =>
          match file.ip_filter with
          | some _ => Except.error (ValidateFailure.panic "not yet implemented: Validate ip filter config")
          | none =>
            match file.content_types with
            | some _ => Except.error (ValidateFailure.panic "not yet implemented: Validate content type filter config")
            | none =>
              match file.rate_limiting with
              | some _ => Except.error (ValidateFailure.panic "not yet implemented: Validate rate limiting config")
              | none =>
                Except.ok ⟨http, tls, cors, CacheControlConfig.default,
                  AccessControlConfig.default, none, none, none⟩

/-- Embeds `BucketSettings` from `src/models/bucket.rs`. -/
structure BucketSettings where
  default_cache_policy : Option CachePolicy
  access_logging : Bool
deriving DecidableEq, Repr

/-- Embeds `Bucket`: the UUID is modelled by its canonical string form (the
form stored in the `uuid` TEXT column). -/
structure Bucket where
  uuid : String
  name : String
  settings : BucketSettings
deriving DecidableEq, Repr

/-- The `buckets` table of `Bucket::create_table`, as the list of its rows in
rowid (insertion) order.  `create_table` declares `uuid TEXT PRIMARY KEY
UNIQUE NOT NULL` and `name TEXT UNIQUE NOT NULL`. -/
def BucketTable : Type := List Bucket

/-- Embeds the error taxonomy of the catalog layer: `conflict` stands for the
sqlite UNIQUE-constraint violation surfaced by `Bucket::new` when an INSERT
collides on `uuid` or `name`; `notFound` for a missing bucket. -/
inductive CatalogError
  | conflict
  | notFound
deriving DecidableEq, Repr

/-- Whether inserting a row with this `uuid` and `name` violates a UNIQUE
constraint of the `buckets` table. -/
def uniqueViolation (db : List Bucket) (uuid name : String) : Bool :=
  db.any fun b => b.uuid = uuid || b.name = name

/-- Embeds `Bucket::new`: builds the record (`Uuid::new_v4()` is modelled by
the `uuid` argument, a fresh random identifier) and executes
`INSERT INTO buckets VALUES (?, ?, ?, ?)`.  The INSERT appends the row, or
fails on a UNIQUE-constraint violation leaving the table unchanged. -/
def createBucket (db : List Bucket) (uuid name : String) (settings : BucketSettings) :
    Except CatalogError (Bucket × List Bucket) :=
  if uniqueViolation db uuid name then Except.error CatalogError.conflict
  else
    let b : Bucket := ⟨uuid, name, settings⟩
    Except.ok (b, db ++ [b])

/-- Embeds `Bucket::delete` from `src/models/bucket.rs`: the body of the
function is empty (`pub async fn delete(self, db: &Database) {}`), so it
performs no statement against the database and returns unit. -/
def deleteBucket (db : List Bucket) (_name : String) : List Bucket := db

/-- Embeds `Bucket::find_all`: `SELECT * FROM buckets;` returns every row in
rowid (insertion) order. -/
def findAll (db : List Bucket) : List Bucket := db

/-- The catalog operations exercised by the bucket routes, for stating
invariants over arbitrary operation sequences. -/
inductive CatalogOp
  | create (uuid name : String) (settings : BucketSettings)
  | delete (name : String)
deriving DecidableEq, Repr

/-- One catalog operation applied to the table: a failed `createBucket`
leaves the table unchanged, `deleteBucket` is the no-op of the source. -/
def applyOp (db : List Bucket) : CatalogOp → List Bucket
  | CatalogOp.create uuid name settings =>
    match createBucket db uuid name settings with
    | Except.ok (_, db2) => db2
    | Except.error _ => db
  | CatalogOp.delete name => deleteBucket db name

/-- Embeds `PaginatedQuery` from `src/routes/api/mod.rs`. -/
structure PaginatedQuery where
  page : Option Nat
  limit : Option Nat
deriving DecidableEq, Repr

/-- Embeds `ClientBucket` from `src/routes/api/buckets.rs`. -/
structure ClientBucket where
  uuid : String
  name : String
  settings : BucketSettings
deriving DecidableEq, Repr

/-- Embeds `From<Bucket> for ClientBucket`. -/
def toClientBucket (b : Bucket) : ClientBucket := ⟨b.uuid, b.name, b.settings⟩

/-- Embeds the `get_buckets` handler: `Bucket::find_all(&db)` mapped into
`ClientBucket`s.  The handler takes no query extractor, so the `page` and
`limit` parameters of the request (the `PaginatedQuery` argument) are never
read. -/
def getBuckets (db : List Bucket) (_query : PaginatedQuery) : List ClientBucket :=
  (findAll db).map toClientBucket

/-- Embeds the row type read back from the `buckets` table: `uuid` and
`name` are TEXT NOT NULL, `settings.default_cache_policy` is nullable TEXT,
`settings.access_logging` an INTEGER. -/
structure Row where
  uuid : String
  name : String
  default_cache_policy : Option String
  access_logging : Int
deriving DecidableEq, Repr

/-- Outcome of a row conversion whose failure mode is a panic (`expect`),
distinguished from returning a typed error value. -/
inductive RowConversion (α : Type)
  | panicked (msg : String)
  | ok (a : α)
deriving DecidableEq, Repr

/-- Embeds `impl From<Row> for Bucket`: the uuid column goes through
`Uuid::parse` (external uuid crate, taken as the `parseUuid` parameter) with
`.expect("Failed to parse uuid")`, and a non-null cache-policy column through
the strum parser with `.expect("Failed to parse settings.default_cache_policy")`;
each `expect` is a panic, not an error return. -/
def rowToBucket (parseUuid : String → Option String) (row : Row) :
    RowConversion Bucket :=
  match parseUuid row.uuid with
  | none => RowConversion.panicked "Failed to parse uuid"
  | some uuid =>
    match row.default_cache_policy with
    | none =>
      RowConversion.ok ⟨uuid, row.name, ⟨none, row.access_logging = 1⟩⟩
    | some s =>
      match parseCachePolicy s with
      | none => RowConversion.panicked "Failed to parse settings.default_cache_policy"
      | some cp =>
        RowConversion.ok ⟨uuid, row.name, ⟨some cp, row.access_logging = 1⟩⟩

/-! ### Helper lemmas about the list-validation pattern -/

theorem collectParsed_not_ok {α : Type} (parse : String → Option α)
    (mkErr : String → ConfigError) (ss : List String) (s : String)
    (hmem : s ∈ ss) (hfail : parse s = none) :
    ∀ l, collectParsed parse mkErr ss ≠ Except.ok l := by
  induction ss with
  | nil => cases hmem
  | cons x xs ih =>
    intro l
    rcases List.mem_cons.mp hmem with rfl | hmem2
    · simp [collectParsed, hfail]
    · cases hx : parse x with
      | none => simp [collectParsed, hx]
      | some a =>
        simp only [collectParsed, hx]
        cases hr : collectParsed parse mkErr xs with
        | error e => simp
        | ok as => exact absurd hr (ih hmem2 as)

theorem collectParsed_ok_filterMap {α : Type} (parse : String → Option α)
    (mkErr : String → ConfigError) (ss : List String) (l : List α)
    (hok : collectParsed parse mkErr ss = Except.ok l) :
    l = ss.filterMap parse ∧ l.length = ss.length := by
  induction ss generalizing l with
  | nil =>
    simp [collectParsed] at hok
    simp [hok.symm]
  | cons x xs ih =>
    cases hx : parse x with
    | none => simp [collectParsed, hx] at hok
    | some a =>
      simp only [collectParsed, hx] at hok
      cases hr : collectParsed parse mkErr xs with
      | error e => rw [hr] at hok; cases hok
      | ok as =>
        rw [hr] at hok
        cases hok
        obtain ⟨h1, h2⟩ := ih as hr
        simp [List.filterMap_cons, hx, h1.symm, h2]

theorem validateTls_not_ok_of_no_keys (t : TlsSection)
    (h1 : t.private_key = none) (h2 : t.public_key = none)
    (h3 : t.private_key_file = none) (h4 : t.public_key_file = none) :
    ∀ tc, validateTls t ≠ Except.ok tc := by
  intro tc hok
  unfold validateTls at hok
  cases hv : (match t.tls_versions with
    | some versions => collectParsed parseTlsVersion ConfigError.invalidTlsVersion versions
    | none => Except.ok [TlsVersion.v1_1, TlsVersion.v1_2, TlsVersion.v1_3]) with
  | error e => rw [hv] at hok; cases hok
  | ok vs =>
    rw [hv] at hok
    rw [h1, h2, h3, h4] at hok
    simp [validateTlsKeys] at hok

/-- C1: for a configuration whose tls section is present, TLS key material is
accepted exactly when one of the two supply modes is complete (both inline
keys, or both file paths); every other combination of the four fields exits
with the invalid-TLS-keys error, so a configuration with a tls section and no
key material is never accepted, while an absent tls section validates to a
configuration without TLS. -/
theorem c1_tls_key_material :
    (∀ a b : String,
      validateTlsKeys (some a) (some b) none none =
        Except.ok (TlsKeyConfig.string a b))
  ∧ (∀ c d : String,
      validateTlsKeys none none (some c) (some d) =
        Except.ok (TlsKeyConfig.file c d))
  ∧ (∀ pk pub pkf pubf : Option String,
      ¬((pk ≠ none ∧ pub ≠ none ∧ pkf = none ∧ pubf = none) ∨
        (pk = none ∧ pub = none ∧ pkf ≠ none ∧ pubf ≠ none)) →
      validateTlsKeys pk pub pkf pubf =
        Except.error (ValidateFailure.configError ConfigError.invalidTlsKeys))
  ∧ (∀ (pO pM pH : String → Option String) (file : ConfigFile) (t : TlsSection),
      file.tls = some t → t.private_key = none → t.public_key = none →
      t.private_key_file = none → t.public_key_file = none →
      ∀ cfg, validateFile pO pM pH file ≠ Except.ok cfg)
  ∧ (∀ (pO pM pH : String → Option String) (file : ConfigFile) (cfg : Config),
      file.tls = none → validateFile pO pM pH file = Except.ok cfg →
      cfg.tls = none) := by
  refine ⟨fun a b => rfl, fun c d => rfl, ?_, ?_, ?_⟩
  · intro pk pub pkf pubf hshape
    cases pk <;> cases pub <;> cases pkf <;> cases pubf <;>
      first
        | rfl
        | (exfalso; apply hshape; simp)
  · intro pO pM pH file t hfile h1 h2 h3 h4 cfg hok
    unfold validateFile at hok
    rw [hfile] at hok
    dsimp only at hok
    cases hv : validateTls t with
    | error e => rw [hv] at hok; simp at hok
    | ok tc => exact validateTls_not_ok_of_no_keys t h1 h2 h3 h4 tc hv
  · intro pO pM pH file cfg hnone hok
    unfold validateFile at hok
    rw [hnone] at hok
    dsimp only at hok
    repeat' split at hok
    all_goals cases hok
    all_goals rfl

/-! ### Concrete inputs reused by witnesses and counterexamples -/

def idParser : String → Option String := fun s => some s

def emptyFile : ConfigFile := ⟨none, none, none, none, none, none, none, none⟩

def tlsNoKeys : TlsSection := ⟨none, none, none, none, none⟩

def fileTlsNoKeys : ConfigFile :=
  ⟨none, some tlsNoKeys, none, none, none, none, none, none⟩

def tlsInlineDefaultVersions : TlsSection :=
  ⟨none, some "PRIV", some "PUB", none, none⟩

def fileTlsInline : ConfigFile :=
  ⟨none, some tlsInlineDefaultVersions, none, none, none, none, none, none⟩

def cfg0 : Config :=
  ⟨HttpConfig.default, none, none, CacheControlConfig.default,
    AccessControlConfig.default, none, none, none⟩

/-- Closed form of C1 at concrete inputs: a mixed key combination is rejected
with the invalid-TLS-keys error, a tls section carrying no key material never
validates, and a file without a tls section validates to a configuration
without TLS. -/
theorem c1_tls_key_material_witness :
    validateTlsKeys (some "PRIV") (some "PUB") (some "f.pem") none =
      Except.error (ValidateFailure.configError ConfigError.invalidTlsKeys)
  ∧ validateFile idParser idParser idParser fileTlsNoKeys ≠ Except.ok cfg0
  ∧ cfg0.tls = none :=
  ⟨c1_tls_key_material.2.2.1 (some "PRIV") (some "PUB") (some "f.pem") none
      (by simp),
   c1_tls_key_material.2.2.2.1 idParser idParser idParser fileTlsNoKeys
      tlsNoKeys rfl rfl rfl rfl rfl cfg0,
   c1_tls_key_material.2.2.2.2 idParser idParser idParser emptyFile cfg0 rfl rfl⟩

/-! ### Inversion of `validateFile` on the tls component -/

theorem validateFile_ok_tls_inv (pO pM pH : String → Option String)
    (file : ConfigFile) (cfg : Config)
    (hok : validateFile pO pM pH file = Except.ok cfg) :
    (file.tls = none ∧ cfg.tls = none) ∨
    (∃ t tc, file.tls = some t ∧ validateTls t = Except.ok tc ∧
      cfg.tls = some tc) := by
  unfold validateFile at hok
  cases hf : file.tls with
  | none =>
    rw [hf] at hok
    dsimp only at hok
    repeat' split at hok
    all_goals cases hok
    all_goals exact Or.inl ⟨rfl, rfl⟩
  | some t =>
    rw [hf] at hok
    dsimp only at hok
    cases hv : validateTls t with
    | error e => rw [hv] at hok; dsimp only at hok; cases hok
    | ok tc =>
      rw [hv] at hok
      dsimp only at hok
      repeat' split at hok
      all_goals cases hok
      all_goals exact Or.inr ⟨t, tc, rfl, hv, rfl⟩

theorem validateTls_ok_versions_none (t : TlsSection) (tc : TlsConfig)
    (ht : t.tls_versions = none) (hok : validateTls t = Except.ok tc) :
    tc.tls_versions = [TlsVersion.v1_1, TlsVersion.v1_2, TlsVersion.v1_3] := by
  unfold validateTls at hok
  rw [ht] at hok
  dsimp only at hok
  split at hok
  · cases hok
  · cases hok; rfl

/-- C9: when the access-control section is absent, the validated
configuration requires access tokens and disables the loopback bypass. -/
theorem c9_access_control_default (pO pM pH : String → Option String)
    (file : ConfigFile) (cfg : Config)
    (_habsent : file.access_control = none)
    (hok : validateFile pO pM pH file = Except.ok cfg) :
    cfg.access_control.enable_access_tokens = true ∧
    cfg.access_control.enable_local_host_auth_bypass = false := by
  unfold validateFile at hok
  dsimp only at hok
  repeat' split at hok
  all_goals cases hok
  all_goals exact ⟨rfl, rfl⟩

/-- Closed form of C9 at the empty configuration file. -/
theorem c9_access_control_default_witness :
    cfg0.access_control.enable_access_tokens = true ∧
    cfg0.access_control.enable_local_host_auth_bypass = false :=
  c9_access_control_default idParser idParser idParser emptyFile cfg0 rfl rfl

/-- C10: when the tls section is present but its tls-versions field is
absent, the validated TLS configuration enables all three supported protocol
versions, legacy 1.1 included. -/
theorem c10_tls_default_versions :
    (∀ (t : TlsSection) (tc : TlsConfig), t.tls_versions = none →
      validateTls t = Except.ok tc →
      tc.tls_versions = [TlsVersion.v1_1, TlsVersion.v1_2, TlsVersion.v1_3])
  ∧ (∀ (pO pM pH : String → Option String) (file : ConfigFile)
      (t : TlsSection) (cfg : Config),
      file.tls = some t → t.tls_versions = none →
      validateFile pO pM pH file = Except.ok cfg →
      ∃ tc, cfg.tls = some tc ∧
        tc.tls_versions = [TlsVersion.v1_1, TlsVersion.v1_2, TlsVersion.v1_3]) := by
  refine ⟨validateTls_ok_versions_none, ?_⟩
  intro pO pM pH file t cfg hfile ht hok
  rcases validateFile_ok_tls_inv pO pM pH file cfg hok with
    ⟨hnone, _⟩ | ⟨t2, tc, hsome, hv, htls⟩
  · rw [hfile] at hnone; cases hnone
  · rw [hfile] at hsome
    cases hsome
    exact ⟨tc, htls, validateTls_ok_versions_none t tc ht hv⟩

/-- Closed form of C10: a tls section with inline keys and no tls-versions
field validates to the full version set. -/
theorem c10_tls_default_versions_witness :
    ∃ tc, (Config.tls ⟨HttpConfig.default,
        some ⟨[TlsVersion.v1_1, TlsVersion.v1_2, TlsVersion.v1_3],
          TlsKeyConfig.string "PRIV" "PUB"⟩, none, CacheControlConfig.default,
        AccessControlConfig.default, none, none, none⟩) = some tc ∧
      tc.tls_versions = [TlsVersion.v1_1, TlsVersion.v1_2, TlsVersion.v1_3] :=
  c10_tls_default_versions.2 idParser idParser idParser fileTlsInline
    tlsInlineDefaultVersions _ rfl rfl rfl

def tlsEmptyVersions : TlsSection := ⟨some [], some "PRIV", some "PUB", none, none⟩

def fileTlsEmptyVersions : ConfigFile :=
  ⟨none, some tlsEmptyVersions, none, none, none, none, none, none⟩

/-- C4 counterexample: a present tls section whose tls-versions field is the
explicitly empty list validates successfully, and the validated TLS
configuration enables no protocol version at all — the version set is not
checked for non-emptiness. -/
theorem c4_nonempty_versions_counterexample :
    validateFile idParser idParser idParser fileTlsEmptyVersions =
      Except.ok ⟨HttpConfig.default,
        some ⟨[], TlsKeyConfig.string "PRIV" "PUB"⟩, none,
        CacheControlConfig.default, AccessControlConfig.default,
        none, none, none⟩ := rfl

/-- C4 (amended): every supplied TLS version string is parsed against the
supported set (1.1, 1.2, 1.3) and a string outside that set fails validation;
on success the enabled versions are exactly the parses of the supplied
strings — one per supplied string, so the set is non-empty precisely when the
supplied list is non-empty — and default to all three versions when the field
is absent.  (The source does not reject an explicitly empty supplied list.) -/
theorem c4_tls_versions_amended :
    (∀ (ss : List String) (s : String) (pk pub pkf pubf : Option String)
      (tc : TlsConfig), s ∈ ss → parseTlsVersion s = none →
      validateTls ⟨some ss, pk, pub, pkf, pubf⟩ ≠ Except.ok tc)
  ∧ (∀ (t : TlsSection) (tc : TlsConfig), validateTls t = Except.ok tc →
      (t.tls_versions = none →
        tc.tls_versions = [TlsVersion.v1_1, TlsVersion.v1_2, TlsVersion.v1_3])
      ∧ (∀ ss, t.tls_versions = some ss →
          tc.tls_versions = ss.filterMap parseTlsVersion ∧
          tc.tls_versions.length = ss.length ∧
          (tc.tls_versions = [] ↔ ss = []))) := by
  constructor
  · intro ss s pk pub pkf pubf tc hmem hfail hok
    unfold validateTls at hok
    dsimp only at hok
    cases hr : collectParsed parseTlsVersion ConfigError.invalidTlsVersion ss with
    | error e => rw [hr] at hok; simp at hok
    | ok l => exact collectParsed_not_ok _ _ ss s hmem hfail l hr
  · intro t tc hok
    refine ⟨fun ht => validateTls_ok_versions_none t tc ht hok, ?_⟩
    intro ss hss
    unfold validateTls at hok
    rw [hss] at hok
    dsimp only at hok
    cases hr : collectParsed parseTlsVersion ConfigError.invalidTlsVersion ss with
    | error e => rw [hr] at hok; simp at hok
    | ok l =>
      rw [hr] at hok
      dsimp only at hok
      split at hok
      · cases hok
      · cases hok
        obtain ⟨h1, h2⟩ := collectParsed_ok_filterMap _ _ ss l hr
        refine ⟨h1, h2, ?_⟩
        rw [← List.length_eq_zero, h2, List.length_eq_zero]

/-- Closed form of C4 (amended): an unsupported version string is rejected;
a supplied singleton list "1.2" yields exactly the one parsed version. -/
theorem c4_tls_versions_amended_witness :
    validateTls ⟨some ["9.9"], some "PRIV", some "PUB", none, none⟩ ≠
      Except.ok ⟨[], TlsKeyConfig.string "PRIV" "PUB"⟩
  ∧ (TlsConfig.tls_versions ⟨[TlsVersion.v1_2], TlsKeyConfig.string "PRIV" "PUB"⟩ =
      List.filterMap parseTlsVersion ["1.2"] ∧
     (TlsConfig.tls_versions ⟨[TlsVersion.v1_2], TlsKeyConfig.string "PRIV" "PUB"⟩).length =
      (["1.2"] : List String).length ∧
     (TlsConfig.tls_versions ⟨[TlsVersion.v1_2], TlsKeyConfig.string "PRIV" "PUB"⟩ = [] ↔
      (["1.2"] : List String) = [])) :=
  ⟨c4_tls_versions_amended.1 ["9.9"] "9.9" (some "PRIV") (some "PUB") none none
      ⟨[], TlsKeyConfig.string "PRIV" "PUB"⟩ (by simp) rfl,
   (c4_tls_versions_amended.2
      ⟨some ["1.2"], some "PRIV", some "PUB", none, none⟩
      ⟨[TlsVersion.v1_2], TlsKeyConfig.string "PRIV" "PUB"⟩ rfl).2 ["1.2"] rfl⟩

def fileCacheControl : ConfigFile :=
  ⟨none, none, none, some ⟨none, none⟩, none, none, none, none⟩

def fileAccessControl : ConfigFile :=
  ⟨none, none, none, none, some ⟨none, none⟩, none, none, none⟩

def fileIpFilter : ConfigFile :=
  ⟨none, none, none, none, none, some ⟨none, none⟩, none, none⟩

def fileContentTypes : ConfigFile :=
  ⟨none, none, none, none, none, none, some ⟨none, none⟩, none⟩

def fileRateLimiting : ConfigFile :=
  ⟨none, none, none, none, none, none, none, some ⟨none, none⟩⟩

/-- C2: whenever the cache-control, access-control, ip-filter, content-types
or rate-limiting section is present in the input, `validate_file` reaches the
corresponding `todo!` panic: it aborts without producing either a validated
configuration or a configuration error. -/
theorem c2_present_sections_panic :
    validateFile idParser idParser idParser fileCacheControl =
      Except.error (ValidateFailure.panic "not yet implemented: Validate cache control config")
  ∧ validateFile idParser idParser idParser fileAccessControl =
      Except.error (ValidateFailure.panic "not yet implemented: Validate access control config")
  ∧ validateFile idParser idParser idParser fileIpFilter =
      Except.error (ValidateFailure.panic "not yet implemented: Validate ip filter config")
  ∧ validateFile idParser idParser idParser fileContentTypes =
      Except.error (ValidateFailure.panic "not yet implemented: Validate content type filter config")
  ∧ validateFile idParser idParser idParser fileRateLimiting =
      Except.error (ValidateFailure.panic "not yet implemented: Validate rate limiting config") :=
  ⟨rfl, rfl, rfl, rfl, rfl⟩

/-! ### Fail-fast behaviour of the CORS list validation -/

theorem validateCors_origin_fail (pO pM pH : String → Option String)
    (c : CorsSection) (os : List String) (o : String)
    (hc : c.allow_origins = some os) (hmem : o ∈ os) (hfail : pO o = none) :
    ∀ cc, validateCors pO pM pH c ≠ Except.ok cc := by
  intro cc hok
  unfold validateCors at hok
  rw [hc] at hok
  dsimp only at hok
  cases hr : collectParsed pO ConfigError.invalidCorsOrigin os with
  | error e => rw [hr] at hok; simp at hok
  | ok l => exact collectParsed_not_ok _ _ os o hmem hfail l hr

theorem validateCors_method_fail (pO pM pH : String → Option String)
    (c : CorsSection) (ms : List String) (m : String)
    (hc : c.allow_methods = some ms) (hmem : m ∈ ms) (hfail : pM m = none) :
    ∀ cc, validateCors pO pM pH c ≠ Except.ok cc := by
  intro cc hok
  unfold validateCors at hok
  split at hok
  · cases hok
  · rw [hc] at hok
    dsimp only at hok
    cases hr : collectParsed pM ConfigError.invalidCorsMethod ms with
    | error e => rw [hr] at hok; simp at hok
    | ok l => exact collectParsed_not_ok _ _ ms m hmem hfail l hr

theorem validateCors_header_fail (pO pM pH : String → Option String)
    (c : CorsSection) (hs : List String) (hd : String)
    (hc : c.allow_headers = some hs) (hmem : hd ∈ hs) (hfail : pH hd = none) :
    ∀ cc, validateCors pO pM pH c ≠ Except.ok cc := by
  intro cc hok
  unfold validateCors at hok
  split at hok
  · cases hok
  · split at hok
    · cases hok
    · rw [hc] at hok
      dsimp only at hok
      cases hr : collectParsed pH ConfigError.invalidCorsHeader hs with
      | error e => rw [hr] at hok; simp at hok
      | ok l => exact collectParsed_not_ok _ _ hs hd hmem hfail l hr

theorem validateFile_cors_fail (pO pM pH : String → Option String)
    (file : ConfigFile) (c : CorsSection) (hfile : file.cors = some c)
    (hnot : ∀ cc, validateCors pO pM pH c ≠ Except.ok cc) :
    ∀ cfg, validateFile pO pM pH file ≠ Except.ok cfg := by
  intro cfg hok
  unfold validateFile at hok
  dsimp only at hok
  split at hok
  · cases hok
  · rw [hfile] at hok
    dsimp only at hok
    cases hv : validateCors pO pM pH c with
    | error e => rw [hv] at hok; simp at hok
    | ok cc => exact hnot cc hv

/-- C5: an unparseable element in any CORS list (allow-origins,
allow-methods, allow-headers) fails validation of the whole configuration,
and a validated configuration never silently omits an entry: on success each
validated list has exactly one parsed value per supplied string. -/
theorem c5_list_fail_fast :
    (∀ (pO pM pH : String → Option String) (file : ConfigFile)
      (c : CorsSection) (os : List String) (o : String),
      file.cors = some c → c.allow_origins = some os → o ∈ os → pO o = none →
      ∀ cfg, validateFile pO pM pH file ≠ Except.ok cfg)
  ∧ (∀ (pO pM pH : String → Option String) (file : ConfigFile)
      (c : CorsSection) (ms : List String) (m : String),
      file.cors = some c → c.allow_methods = some ms → m ∈ ms → pM m = none →
      ∀ cfg, validateFile pO pM pH file ≠ Except.ok cfg)
  ∧ (∀ (pO pM pH : String → Option String) (file : ConfigFile)
      (c : CorsSection) (hs : List String) (hd : String),
      file.cors = some c → c.allow_headers = some hs → hd ∈ hs → pH hd = none →
      ∀ cfg, validateFile pO pM pH file ≠ Except.ok cfg)
  ∧ (∀ (pO pM pH : String → Option String) (c : CorsSection) (cc : CorsConfig),
      validateCors pO pM pH c = Except.ok cc →
      (∀ os, c.allow_origins = some os →
        cc.allow_origins = os.filterMap pO ∧ cc.allow_origins.length = os.length)
      ∧ (∀ ms, c.allow_methods = some ms →
        cc.allow_methods = ms.filterMap pM ∧ cc.allow_methods.length = ms.length)
      ∧ (∀ hs, c.allow_headers = some hs →
        cc.allow_headers = hs.filterMap pH ∧ cc.allow_headers.length = hs.length)) := by
  refine ⟨?_, ?_, ?_, ?_⟩
  · intro pO pM pH file c os o hfile hc hmem hfail
    exact validateFile_cors_fail pO pM pH file c hfile
      (validateCors_origin_fail pO pM pH c os o hc hmem hfail)
  · intro pO pM pH file c ms m hfile hc hmem hfail
    exact validateFile_cors_fail pO pM pH file c hfile
      (validateCors_method_fail pO pM pH c ms m hc hmem hfail)
  · intro pO pM pH file c hs hd hfile hc hmem hfail
    exact validateFile_cors_fail pO pM pH file c hfile
      (validateCors_header_fail pO pM pH c hs hd hc hmem hfail)
  · intro pO pM pH c cc hok
    unfold validateCors at hok
    split at hok
    · cases hok
    · rename_i lO heqO
      split at hok
      · cases hok
      · rename_i lM heqM
        split at hok
        · cases hok
        · rename_i lH heqH
          cases hok
          refine ⟨fun os hos => ?_, fun ms hms => ?_, fun hs hhs => ?_⟩
          · rw [hos] at heqO
            obtain ⟨h1, h2⟩ := collectParsed_ok_filterMap _ _ os lO heqO
            exact ⟨h1, h2⟩
          · rw [hms] at heqM
            obtain ⟨h1, h2⟩ := collectParsed_ok_filterMap _ _ ms lM heqM
            exact ⟨h1, h2⟩
          · rw [hhs] at heqH
            obtain ⟨h1, h2⟩ := collectParsed_ok_filterMap _ _ hs lH heqH
            exact ⟨h1, h2⟩

def rejectBad : String → Option String := fun s => if s = "bad" then none else some s

def corsBadOrigin : CorsSection := ⟨some ["http:bad", "bad"], none, none, none⟩

def fileCorsBadOrigin : ConfigFile :=
  ⟨none, none, some corsBadOrigin, none, none, none, none, none⟩

/-- Closed form of C5: with an origin parser that rejects "bad", a
configuration whose cors section lists "bad" among its allow-origins never
validates. -/
theorem c5_list_fail_fast_witness :
    validateFile rejectBad idParser idParser fileCorsBadOrigin ≠
      Except.ok cfg0 :=
  c5_list_fail_fast.1 rejectBad idParser idParser fileCorsBadOrigin
    corsBadOrigin ["http:bad", "bad"] "bad" rfl rfl (by simp)
    (by simp [rejectBad]) cfg0

/-! ### Bucket-name uniqueness under catalog operations -/

theorem uniqueViolation_of_name (db : List Bucket) (uuid name : String)
    (b : Bucket) (hb : b ∈ db) (hname : b.name = name) :
    uniqueViolation db uuid name = true := by
  simp only [uniqueViolation, List.any_eq_true]
  exact ⟨b, hb, by simp [hname]⟩

theorem uniqueViolation_false_of_fresh (db : List Bucket) (uuid name : String)
    (hfresh : ∀ b ∈ db, b.uuid ≠ uuid ∧ b.name ≠ name) :
    uniqueViolation db uuid name = false := by
  simp only [uniqueViolation, List.any_eq_false]
  intro b hb
  simp [(hfresh b hb).1, (hfresh b hb).2]

theorem applyOp_nodup_names (db : List Bucket) (op : CatalogOp)
    (h : (db.map Bucket.name).Nodup) :
    (((applyOp db op).map Bucket.name)).Nodup := by
  cases op with
  | delete name => exact h
  | create uuid name s =>
    simp only [applyOp]
    cases hv : createBucket db uuid name s with
    | error e => exact h
    | ok p =>
      obtain ⟨b2, db2⟩ := p
      unfold createBucket at hv
      split at hv
      · cases hv
      · rename_i hviol
        cases hv
        dsimp only
        rw [List.map_append]
        rw [List.nodup_append]
        refine ⟨h, List.nodup_singleton _, ?_⟩
        intro x hx hx2
        simp only [List.map_cons, List.map_nil, List.mem_singleton] at hx2
        subst hx2
        simp only [uniqueViolation, List.any_eq_true, not_exists, not_and,
          Bool.not_eq_true] at hviol
        obtain ⟨b, hb, hbname⟩ := List.mem_map.mp hx
        have := hviol b hb
        simp [hbname] at this

/-- C3: creating a bucket whose name already exists fails with the conflict
error (the UNIQUE constraint) and leaves the table unchanged; with a fresh
name and a fresh UUID the record is appended and returned; consequently the
bucket names of a table built by any sequence of catalog operations are
pairwise distinct. -/
theorem c3_create_bucket_unique :
    (∀ (db : List Bucket) (uuid name : String) (s : BucketSettings) (b : Bucket),
      b ∈ db → b.name = name →
      createBucket db uuid name s = Except.error CatalogError.conflict ∧
      applyOp db (CatalogOp.create uuid name s) = db)
  ∧ (∀ (db : List Bucket) (uuid name : String) (s : BucketSettings),
      (∀ b ∈ db, b.uuid ≠ uuid ∧ b.name ≠ name) →
      createBucket db uuid name s =
        Except.ok (⟨uuid, name, s⟩, db ++ [⟨uuid, name, s⟩]))
  ∧ (∀ ops : List CatalogOp,
      ((List.foldl applyOp [] ops).map Bucket.name).Nodup) := by
  refine ⟨?_, ?_, ?_⟩
  · intro db uuid name s b hb hname
    have hviol := uniqueViolation_of_name db uuid name b hb hname
    constructor
    · simp [createBucket, hviol]
    · simp [applyOp, createBucket, hviol]
  · intro db uuid name s hfresh
    have hviol := uniqueViolation_false_of_fresh db uuid name hfresh
    simp [createBucket, hviol]
  · have aux : ∀ (ops : List CatalogOp) (db : List Bucket),
        (db.map Bucket.name).Nodup →
        ((List.foldl applyOp db ops).map Bucket.name).Nodup := by
      intro ops
      induction ops with
      | nil => intro db h; exact h
      | cons op rest ih =>
        intro db h
        exact ih (applyOp db op) (applyOp_nodup_names db op h)
    intro ops
    exact aux ops [] (by simp)

def bucketA : Bucket := ⟨"0a", "alpha", ⟨none, false⟩⟩

def bucketB : Bucket := ⟨"0b", "beta", ⟨none, false⟩⟩

/-- Closed form of C3: inserting a second bucket named "alpha" conflicts and
leaves the table as it was; inserting "beta" with a fresh UUID appends it. -/
theorem c3_create_bucket_unique_witness :
    (createBucket [bucketA] "0x" "alpha" ⟨none, false⟩ =
        Except.error CatalogError.conflict ∧
      applyOp [bucketA] (CatalogOp.create "0x" "alpha" ⟨none, false⟩) = [bucketA])
  ∧ createBucket [bucketA] "0b" "beta" ⟨none, false⟩ =
      Except.ok (⟨"0b", "beta", ⟨none, false⟩⟩, [bucketA, ⟨"0b", "beta", ⟨none, false⟩⟩]) :=
  ⟨c3_create_bucket_unique.1 [bucketA] "0x" "alpha" ⟨none, false⟩ bucketA
      (by simp) rfl,
   c3_create_bucket_unique.2.1 [bucketA] "0b" "beta" ⟨none, false⟩
      (by intro b hb; simp at hb; subst hb; exact ⟨by decide, by decide⟩)⟩

/-- C6: the `get_buckets` handler returns every bucket of the table in
insertion (creation) order, but its response is completely independent of the
page and limit parameters — a page index past the end of the collection still
receives the full list, not an empty sequence, because the handler never
reads the pagination query. -/
theorem c6_pagination_ignored :
    (∀ (db : List Bucket) (q1 q2 : PaginatedQuery),
      getBuckets db q1 = getBuckets db q2)
  ∧ (∀ (db : List Bucket) (q : PaginatedQuery),
      getBuckets db q = (findAll db).map toClientBucket)
  ∧ getBuckets [bucketA, bucketB] ⟨some 2, some 1⟩ =
      [toClientBucket bucketA, toClientBucket bucketB] :=
  ⟨fun _ _ _ => rfl, fun _ _ => rfl, rfl⟩

/-- C7: `Bucket::delete` has an empty body, so deleting a bucket leaves the
table exactly as it was — the named bucket is not removed, nothing cascades,
and a delete of a non-existent bucket does not fail with NotFound (the
operation has no error outcome at all). -/
theorem c7_delete_noop :
    (∀ (db : List Bucket) (name : String), deleteBucket db name = db)
  ∧ deleteBucket [bucketA] "alpha" = [bucketA]
  ∧ deleteBucket [] "ghost" = [] :=
  ⟨fun _ _ => rfl, rfl, rfl⟩

/-- C8: converting a persisted bucket row panics (via `expect`) on a
malformed UUID string and on an unknown cache-policy string — it aborts
instead of returning a typed error. -/
theorem c8_row_conversion_panics :
    rowToBucket (fun _ => none) ⟨"not-a-uuid", "bkt", none, 1⟩ =
      RowConversion.panicked "Failed to parse uuid"
  ∧ rowToBucket idParser ⟨"0c", "bkt", some "sometimes", 1⟩ =
      RowConversion.panicked "Failed to parse settings.default_cache_policy" :=
  ⟨rfl, rfl⟩
